import Mathlib

/-!
# Stopwatch_Design: a shallow embedding of the firmware and its checked properties

The C sources embedded here are

* `main.c`: the statics `counter`, `ms_elapsed`, `milliseconds`, `seconds`,
  `minutes`, `start_stopwatch`, `reset_stopwatch`, and the functions
  `PMOD_BTN_Handler`, `EduBase_Button_Handler`, `Calculate_Stopwatch_Value`,
  `Timer_0A_Periodic_Task`;
* `PMOD_BTN_Interrupt.c`: `PMOD_BTN_Task`, `PMOD_BTN_Interrupt_Init`,
  `PMOD_BTN_Read`, `GPIOA_Handler`;
* `EduBase_Button_Interrupt.c`: `EduBase_Button_Task`,
  `EduBase_Button_Interrupt_Init`, its own `PMOD_BTN_Read`, `GPIOD_Handler`.

Conventions.  A `uint8_t` object is a `Nat` below `256`, and every C assignment
that can leave that range is reduced `% 256`.  A memory-mapped 32-bit register is
a `Nat` below `2 ^ 32`, and every read-modify-write is reduced `% 2 ^ 32`.
Registers are modelled as plain storage: what the C code reads and writes.  The
reaction of the peripheral to a write (for instance the write-one-to-clear
behaviour of `ICR`) is outside the program and is not modelled.
-/

namespace Stopwatch

/-! ## Data model -/

/-- The registers of one GPIO port block (`GPIOA`, `GPIOB`, `GPIOD`) that the
sources access. -/
structure GPIO_Type where
  DATA : Nat
  DIR : Nat
  AFSEL : Nat
  DEN : Nat
  PDR : Nat
  IS : Nat
  IBE : Nat
  IEV : Nat
  IM : Nat
  MIS : Nat
  ICR : Nat
deriving DecidableEq, Repr

/-- The one register of the `SYSCTL` block that the sources access. -/
structure SYSCTL_Type where
  RCGCGPIO : Nat
deriving DecidableEq, Repr

/-- The registers of the `NVIC` block that the sources access: `IPR[0]` and
`ISER[0]`. -/
structure NVIC_Type where
  IPR0 : Nat
  ISER0 : Nat
deriving DecidableEq, Repr

/-- The static variables of `main.c` together with the memory-mapped registers
the three source files access. -/
structure Machine where
  counter : Nat
  ms_elapsed : Nat
  milliseconds : Nat
  seconds : Nat
  minutes : Nat
  start_stopwatch : Nat
  reset_stopwatch : Nat
  GPIOA : GPIO_Type
  GPIOB : GPIO_Type
  GPIOD : GPIO_Type
  SYSCTL : SYSCTL_Type
  NVIC : NVIC_Type
deriving DecidableEq, Repr

/-- A GPIO port block with every register reading zero. -/
def GPIO_Type.zero : GPIO_Type :=
  ⟨0, 0, 0, 0, 0, 0, 0, 0, 0, 0, 0⟩

/-- The state after C static initialisation (`main.c` lines 40 to 62) with all
registers reading zero. -/
def Machine.init : Machine :=
  { counter := 0, ms_elapsed := 0, milliseconds := 0, seconds := 0, minutes := 0,
    start_stopwatch := 0, reset_stopwatch := 0,
    GPIOA := GPIO_Type.zero, GPIOB := GPIO_Type.zero, GPIOD := GPIO_Type.zero,
    SYSCTL := ⟨0⟩, NVIC := ⟨0, 0⟩ }

/-- The four stopwatch counters `(ms_elapsed, milliseconds, seconds, minutes)`. -/
def Machine.counters (m : Machine) : Nat × Nat × Nat × Nat :=
  (m.ms_elapsed, m.milliseconds, m.seconds, m.minutes)

/-- The shared variables of `main.c`: the display counter, the four stopwatch
counters and the two flags `(start_stopwatch, reset_stopwatch)`. -/
def Machine.shared (m : Machine) : Nat × (Nat × Nat × Nat × Nat) × Nat × Nat :=
  (m.counter, m.counters, m.start_stopwatch, m.reset_stopwatch)

/-! ## `main.c` -/

/-- `Timer_0A_Periodic_Task` (`main.c` lines 269 to 307).  Each `let` is one C
statement; `x++` on a `uint8_t` is `(x + 1) % 256`. -/
def Timer_0A_Periodic_Task (m : Machine) : Machine :=
  let m1 :=
    if m.start_stopwatch = 0x01 then
      let a := { m with ms_elapsed := (m.ms_elapsed + 1) % 256 }
      let b :=
        if a.ms_elapsed > 99 then
          { a with ms_elapsed := 0, milliseconds := (a.milliseconds + 1) % 256 }
        else a
      let c :=
        if b.milliseconds > 9 then
          { b with milliseconds := 0, seconds := (b.seconds + 1) % 256 }
        else b
      let d :=
        if c.seconds > 59 then
          { c with seconds := 0, minutes := (c.minutes + 1) % 256 }
        else c
      if d.minutes > 9 then { d with minutes := 0 } else d
    else m
  if m1.reset_stopwatch = 0x01 then
    { m1 with reset_stopwatch := 0x00, start_stopwatch := 0x00, ms_elapsed := 0,
              milliseconds := 0, seconds := 0, minutes := 0 }
  else m1

/-- The state after `n` consecutive calls of `Timer_0A_Periodic_Task`. -/
def ticks : Nat → Machine → Machine
  | 0, m => m
  | n + 1, m => Timer_0A_Periodic_Task (ticks n m)

/-! The five statement groups of `Timer_0A_Periodic_Task`, named so that proofs
can treat them one at a time; `Timer_0A_Periodic_Task_blocks` shows that the
function is their composition. -/

/-- Lines 273 to 278 of `main.c`: `ms_elapsed++` and the 100 ms rollover. -/
def Timer.block_ms_elapsed (m : Machine) : Machine :=
  let a := { m with ms_elapsed := (m.ms_elapsed + 1) % 256 }
  if a.ms_elapsed > 99 then
    { a with ms_elapsed := 0, milliseconds := (a.milliseconds + 1) % 256 }
  else a

/-- Lines 281 to 284 of `main.c`: the one second rollover. -/
def Timer.block_milliseconds (b : Machine) : Machine :=
  if b.milliseconds > 9 then
    { b with milliseconds := 0, seconds := (b.seconds + 1) % 256 }
  else b

/-- Lines 287 to 290 of `main.c`: the one minute rollover. -/
def Timer.block_seconds (c : Machine) : Machine :=
  if c.seconds > 59 then
    { c with seconds := 0, minutes := (c.minutes + 1) % 256 }
  else c

/-- Lines 293 to 295 of `main.c`: the ten minute wrap. -/
def Timer.block_minutes (d : Machine) : Machine :=
  if d.minutes > 9 then { d with minutes := 0 } else d

/-- Lines 298 to 306 of `main.c`: the reset block. -/
def Timer.block_reset (m1 : Machine) : Machine :=
  if m1.reset_stopwatch = 0x01 then
    { m1 with reset_stopwatch := 0x00, start_stopwatch := 0x00, ms_elapsed := 0,
              milliseconds := 0, seconds := 0, minutes := 0 }
  else m1

/-- `EduBase_Button_Handler` (`main.c` lines 215 to 250).  The argument is the
`uint8_t` value received.  In the `else` branch of `counter <= 0` the counter is
at least one, so the truncated subtraction is the C subtraction. -/
def EduBase_Button_Handler (edubase_button_status : Nat) (m : Machine) : Machine :=
  if edubase_button_status = 0x08 then
    if m.counter ≥ 15 then { m with counter := 0 }
    else { m with counter := (m.counter + 1) % 256 }
  else if edubase_button_status = 0x04 then
    if m.counter ≤ 0 then { m with counter := 15 }
    else { m with counter := (m.counter - 1) % 256 }
  else m

/-- `PMOD_BTN_Handler` (`main.c` lines 85 to 119), the definition that is not
commented out.  The cases `0x04`, `0x08`, `0x10` and `default` only `break`. -/
def PMOD_BTN_Handler (pmod_btn_status : Nat) (m : Machine) : Machine :=
  if pmod_btn_status = 0x04 then m
  else if pmod_btn_status = 0x08 then m
  else if pmod_btn_status = 0x10 then m
  else if pmod_btn_status = 0x20 then
    { m with GPIOB := { m.GPIOB with DATA := (m.GPIOB.DATA ^^^ 0x08) % 2 ^ 32 } }
  else m

/-- `Calculate_Stopwatch_Value` (`main.c` lines 252 to 267).  `stopwatch_value`
is the caller's array, read as the `uint8_t` cells from the pointer on, indexed
from `0`; each `let` is one store, reduced `% 256`.  The result is the array and
the machine after the call: the function stores to no static and to no
register. -/
def Calculate_Stopwatch_Value (stopwatch_value : Nat → Nat) (m : Machine) :
    (Nat → Nat) × Machine :=
  let v := Function.update stopwatch_value 0 (m.milliseconds % 256)
  let v := Function.update v 1 ((m.seconds % 10) % 256)
  let v := Function.update v 2 ((m.seconds / 10) % 256)
  let v := Function.update v 3 (m.minutes % 256)
  (v, m)

/-- What can happen to the shared variables after start-up: a dispatch to one of
the two button handlers with a status byte, or a timer tick. -/
inductive Event where
  | EduBase_Button (status : Nat)
  | PMOD_BTN (status : Nat)
  | Timer_0A
deriving DecidableEq, Repr

/-- The effect of one event on the machine. -/
def Event.run : Event → Machine → Machine
  | Event.EduBase_Button status, m => EduBase_Button_Handler (status % 256) m
  | Event.PMOD_BTN status, m => PMOD_BTN_Handler (status % 256) m
  | Event.Timer_0A, m => Timer_0A_Periodic_Task m

/-- The machine after a sequence of events, the head of the list first. -/
def run_events : List Event → Machine → Machine
  | [], m => m
  | e :: es, m => run_events es (e.run m)

/-- How many of the four counters a call took from its maximum to `0`: the
rollover events between the machine `before` the call and the machine `after`
it. -/
def rollovers (before after : Machine) : Nat :=
  (if before.ms_elapsed = 99 ∧ after.ms_elapsed = 0 then 1 else 0) +
  (if before.milliseconds = 9 ∧ after.milliseconds = 0 then 1 else 0) +
  (if before.seconds = 59 ∧ after.seconds = 0 then 1 else 0) +
  (if before.minutes = 9 ∧ after.minutes = 0 then 1 else 0)

/-! ## The interrupt channels: `PMOD_BTN_Interrupt.c`, `EduBase_Button_Interrupt.c` -/

/-- A function `void (*)(uint8_t)` that can be registered as a task: it receives
the status byte and acts on the machine. -/
abbrev Task := Nat → Machine → Machine

/-- The two task pointers of the drivers. -/
inductive TaskSlot where
  | PMOD_BTN_Task
  | EduBase_Button_Task
deriving DecidableEq, Repr

/-- The machine together with the two task pointers (`none` is the null pointer
a zero-initialised global holds) and `calls`, the history of the indirect calls
made through them: which pointer was called and the byte it was passed.  `calls`
is a record kept for the statements below; no code reads it. -/
structure System where
  m : Machine
  PMOD_BTN_Task : Option Task
  EduBase_Button_Task : Option Task
  calls : List (TaskSlot × Nat)

/-- The indirect call `(*task)(arg)`: the argument is converted to `uint8_t`,
the call is recorded and the task runs on the machine.  Calling through a null
pointer has no defined result. -/
def call_task (slot : TaskSlot) (task : Option Task) (arg : Nat) (s : System) :
    Option System :=
  match task with
  | none => none
  | some t => some { s with m := t (arg % 256) s.m, calls := s.calls ++ [(slot, arg % 256)] }

/-- `PMOD_BTN_Read` (`PMOD_BTN_Interrupt.c` lines 79 to 87; the same body stands
in `EduBase_Button_Interrupt.c` lines 77 to 86): `GPIOA->DATA & 0x3C` stored in a
`uint8_t`. -/
def PMOD_BTN_Read (m : Machine) : Nat :=
  (m.GPIOA.DATA &&& 0x3C) % 256

/-- `GPIOA_Handler` (`PMOD_BTN_Interrupt.c` lines 89 to 102). -/
def GPIOA_Handler (s : System) : Option System :=
  if s.m.GPIOA.MIS &&& 0x3C ≠ 0 then
    match call_task TaskSlot.PMOD_BTN_Task s.PMOD_BTN_Task (PMOD_BTN_Read s.m) s with
    | none => none
    | some s1 =>
      some { s1 with m := { s1.m with GPIOD :=
        { s1.m.GPIOD with ICR := (s1.m.GPIOD.ICR ||| 0x0C) % 2 ^ 32 } } }
  else some s

/-- `GPIOD_Handler` (`EduBase_Button_Interrupt.c` lines 88 to 101).
`Get_EduBase_Button_Status` is called here but defined in none of the three
source files, so the handler takes it as a parameter: a read of the machine that
returns the status value and changes nothing. -/
def GPIOD_Handler (Get_EduBase_Button_Status : Machine → Nat) (s : System) :
    Option System :=
  if s.m.GPIOD.MIS &&& 0x0C ≠ 0 then
    match call_task TaskSlot.EduBase_Button_Task s.EduBase_Button_Task
        (Get_EduBase_Button_Status s.m) s with
    | none => none
    | some s1 =>
      some { s1 with m := { s1.m with GPIOD :=
        { s1.m.GPIOD with ICR := (s1.m.GPIOD.ICR ||| 0x0C) % 2 ^ 32 } } }
  else some s

/-- The system after `main` has registered both handlers (`main.c` lines 67 and
70), on machine `m` and with an empty call history. -/
def System.registered (m : Machine) : System :=
  { m := m, PMOD_BTN_Task := some PMOD_BTN_Handler,
    EduBase_Button_Task := some EduBase_Button_Handler, calls := [] }

/-! ### Register read-modify-write -/

/-- The statement `reg |= c` on a 32-bit register. -/
def or32 (reg c : Nat) : Nat := (reg ||| c) % 2 ^ 32

/-- The statement `reg &= c` on a 32-bit register, `c` being the bit pattern of
the right-hand side. -/
def and32 (reg c : Nat) : Nat := (reg &&& c) % 2 ^ 32

/-- The bit pattern of `~c` for a constant `c` of type `int` (32 bits). -/
def not32 (c : Nat) : Nat := 2 ^ 32 - 1 - c

/-- The bit pattern of `~c` for a constant `c` of type `long long` (64 bits), the
type C gives a hexadecimal constant that no 32-bit type can hold. -/
def not64 (c : Nat) : Nat := 2 ^ 64 - 1 - c

/-! ### Initialisation -/

/-- `EduBase_Button_Interrupt_Init` (`EduBase_Button_Interrupt.c` lines 22 to
75).  `task` may be the null pointer.  Each `let` is one C statement.  The
constant `0xE00000000` on line 68 has nine hexadecimal digits, so it is a 64-bit
constant and `~` is taken on 64 bits before the result is stored in the 32-bit
register. -/
def EduBase_Button_Interrupt_Init (task : Option Task) (s : System) : System :=
  let s := { s with EduBase_Button_Task := task }
  let m := s.m
  let m := { m with SYSCTL := { m.SYSCTL with RCGCGPIO := or32 m.SYSCTL.RCGCGPIO 0x08 } }
  let m := { m with GPIOD := { m.GPIOD with DIR := and32 m.GPIOD.DIR (not32 0x0C) } }
  let m := { m with GPIOD := { m.GPIOD with AFSEL := and32 m.GPIOD.AFSEL (not32 0x0C) } }
  let m := { m with GPIOD := { m.GPIOD with DEN := or32 m.GPIOD.DEN 0x0C } }
  let m := { m with GPIOD := { m.GPIOD with PDR := or32 m.GPIOD.PDR 0x0C } }
  let m := { m with GPIOD := { m.GPIOD with IS := and32 m.GPIOD.IS (not32 0x0C) } }
  let m := { m with GPIOD := { m.GPIOD with IBE := and32 m.GPIOD.IBE (not32 0x0C) } }
  let m := { m with GPIOD := { m.GPIOD with IEV := or32 m.GPIOD.IEV 0x0C } }
  let m := { m with GPIOD := { m.GPIOD with ICR := or32 m.GPIOD.ICR 0x0C } }
  let m := { m with GPIOD := { m.GPIOD with IM := or32 m.GPIOD.IM 0x0C } }
  let m := { m with NVIC := { m.NVIC with IPR0 := and32 m.NVIC.IPR0 (not64 0xE00000000) } }
  let m := { m with NVIC := { m.NVIC with IPR0 := or32 m.NVIC.IPR0 (3 <<< 29) } }
  let m := { m with NVIC := { m.NVIC with ISER0 := or32 m.NVIC.ISER0 (1 <<< 3) } }
  { s with m := m }

/-- `PMOD_BTN_Interrupt_Init` (`PMOD_BTN_Interrupt.c` lines 24 to 77).  `task`
may be the null pointer.  Each `let` is one C statement; lines 33 to 67 address
`GPIOD`, and line 67 uses the mask `0x0C`.  The constant `0x0000000E0` on line 70
has the value `0xE0` and the type `int`. -/
def PMOD_BTN_Interrupt_Init (task : Option Task) (s : System) : System :=
  let s := { s with PMOD_BTN_Task := task }
  let m := s.m
  let m := { m with SYSCTL := { m.SYSCTL with RCGCGPIO := or32 m.SYSCTL.RCGCGPIO 0x01 } }
  let m := { m with GPIOD := { m.GPIOD with DIR := and32 m.GPIOD.DIR (not32 0x3C) } }
  let m := { m with GPIOD := { m.GPIOD with AFSEL := and32 m.GPIOD.AFSEL (not32 0x3C) } }
  let m := { m with GPIOD := { m.GPIOD with DEN := or32 m.GPIOD.DEN 0x3C } }
  let m := { m with GPIOD := { m.GPIOD with PDR := or32 m.GPIOD.PDR 0x3C } }
  let m := { m with GPIOD := { m.GPIOD with IS := and32 m.GPIOD.IS (not32 0x3C) } }
  let m := { m with GPIOD := { m.GPIOD with IBE := and32 m.GPIOD.IBE (not32 0x3C) } }
  let m := { m with GPIOD := { m.GPIOD with IEV := or32 m.GPIOD.IEV 0x3C } }
  let m := { m with GPIOD := { m.GPIOD with ICR := or32 m.GPIOD.ICR 0x3C } }
  let m := { m with GPIOD := { m.GPIOD with IM := or32 m.GPIOD.IM 0x0C } }
  let m := { m with NVIC := { m.NVIC with IPR0 := and32 m.NVIC.IPR0 (not32 0x0000000E0) } }
  let m := { m with NVIC := { m.NVIC with IPR0 := or32 m.NVIC.IPR0 (3 <<< 5) } }
  let m := { m with NVIC := { m.NVIC with ISER0 := or32 m.NVIC.ISER0 (1 <<< 0) } }
  { s with m := m }

/-- The three-bit priority field of `IPR[0]` whose lowest bit is bit `lo`
(`lo = 29` for port D, `lo = 5` for port A). -/
def priority_field (ipr lo : Nat) : Nat := (ipr >>> lo) % 8

/-! ### The read-status functions as calls -/

/-- `PMOD_BTN_Read` of `EduBase_Button_Interrupt.c` (lines 77 to 86): the
function this file defines carries the same name and the same body as the one
of `PMOD_BTN_Interrupt.c`, `GPIOA->DATA & 0x3C` stored in a `uint8_t`, although
the file is the driver of PD3 and PD2. -/
def EduBase_Button_Interrupt.PMOD_BTN_Read (m : Machine) : Nat :=
  (m.GPIOA.DATA &&& 0x3C) % 256

/-- A call of `PMOD_BTN_Read` of `PMOD_BTN_Interrupt.c`: the value returned and
the machine after the call.  The body declares a local, reads `GPIOA->DATA` and
returns; it stores to no register and to no static. -/
def PMOD_BTN_Read_call (m : Machine) : Nat × Machine :=
  (PMOD_BTN_Read m, m)

/-- A call of `PMOD_BTN_Read` of `EduBase_Button_Interrupt.c`: the value
returned and the machine after the call. -/
def EduBase_Button_Interrupt.PMOD_BTN_Read_call (m : Machine) : Nat × Machine :=
  (EduBase_Button_Interrupt.PMOD_BTN_Read m, m)

/-! ## Concrete states used as inputs below -/

/-- Both handlers registered; port A reports an interrupt only on pin 6, which
the PMOD BTN channel does not monitor, and port D only on pin 4, which the
EduBase channel does not monitor. -/
def Examples.nothing_pending : System :=
  System.registered
    { Machine.init with
      counter := 7,
      GPIOA := { GPIO_Type.zero with DATA := 0x60, MIS := 0x40 },
      GPIOD := { GPIO_Type.zero with DATA := 0x18, MIS := 0x10 } }

/-- Both handlers registered; BTN3 (PA5) is high and its interrupt is pending on
port A; every other register reads zero. -/
def Examples.btn3_pending : System :=
  System.registered
    { Machine.init with GPIOA := { GPIO_Type.zero with DATA := 0x20, MIS := 0x20 } }

/-- No task registered; on port A the bits `0x3C` are set in `DIR`, `AFSEL`,
`IS` and `IBE` and clear everywhere else; every other register reads zero. -/
def Examples.port_A_unconfigured : System :=
  { m := { Machine.init with
           GPIOA := { GPIO_Type.zero with DIR := 0x3C, AFSEL := 0x3C, IS := 0x3C, IBE := 0x3C } },
    PMOD_BTN_Task := none, EduBase_Button_Task := none, calls := [] }

/-- No task registered; `IPR[0]` holds `0x80000000`, priority 4 in the port D
field; every other register reads zero. -/
def Examples.priority_four : System :=
  { m := { Machine.init with NVIC := { IPR0 := 0x80000000, ISER0 := 0 } },
    PMOD_BTN_Task := none, EduBase_Button_Task := none, calls := [] }

/-- Port A reads `0x30` (BTN2 and BTN3 high) and port D reads `0x0C` (SW2 and SW3
high) on their `DATA` registers. -/
def Examples.both_ports_high : Machine :=
  { Machine.init with
    GPIOA := { GPIO_Type.zero with DATA := 0x30 },
    GPIOD := { GPIO_Type.zero with DATA := 0x0C } }

/-! ## The periodic tick accumulator -/

/-- The embedded function is, by unfolding, the composition of its statement
groups. -/
theorem Timer_0A_Periodic_Task_blocks (m : Machine) :
    Timer_0A_Periodic_Task m =
      Timer.block_reset
        (if m.start_stopwatch = 0x01 then
          Timer.block_minutes (Timer.block_seconds
            (Timer.block_milliseconds (Timer.block_ms_elapsed m)))
         else m) := rfl

theorem Timer.block_ms_elapsed_eq (m : Machine) :
    Timer.block_ms_elapsed m =
      { m with
        ms_elapsed := if (m.ms_elapsed + 1) % 256 > 99 then 0 else (m.ms_elapsed + 1) % 256,
        milliseconds :=
          if (m.ms_elapsed + 1) % 256 > 99 then (m.milliseconds + 1) % 256
          else m.milliseconds } := by
  simp only [Timer.block_ms_elapsed]
  split_ifs <;> rfl

theorem Timer.block_milliseconds_eq (b : Machine) :
    Timer.block_milliseconds b =
      { b with
        milliseconds := if b.milliseconds > 9 then 0 else b.milliseconds,
        seconds := if b.milliseconds > 9 then (b.seconds + 1) % 256 else b.seconds } := by
  unfold Timer.block_milliseconds
  split_ifs <;> rfl

theorem Timer.block_seconds_eq (c : Machine) :
    Timer.block_seconds c =
      { c with
        seconds := if c.seconds > 59 then 0 else c.seconds,
        minutes := if c.seconds > 59 then (c.minutes + 1) % 256 else c.minutes } := by
  unfold Timer.block_seconds
  split_ifs <;> rfl

theorem Timer.block_minutes_eq (d : Machine) :
    Timer.block_minutes d =
      { d with minutes := if d.minutes > 9 then 0 else d.minutes } := by
  unfold Timer.block_minutes
  split_ifs <;> rfl

theorem Timer.block_reset_eq (m1 : Machine) :
    Timer.block_reset m1 =
      { m1 with
        reset_stopwatch := if m1.reset_stopwatch = 1 then 0 else m1.reset_stopwatch,
        start_stopwatch := if m1.reset_stopwatch = 1 then 0 else m1.start_stopwatch,
        ms_elapsed := if m1.reset_stopwatch = 1 then 0 else m1.ms_elapsed,
        milliseconds := if m1.reset_stopwatch = 1 then 0 else m1.milliseconds,
        seconds := if m1.reset_stopwatch = 1 then 0 else m1.seconds,
        minutes := if m1.reset_stopwatch = 1 then 0 else m1.minutes } := by
  unfold Timer.block_reset
  split_ifs <;> rfl

/-- Field-wise description of the accumulation branch (lines 273 to 295). -/
theorem Timer.accumulate_eq (m : Machine) :
    Timer.block_minutes (Timer.block_seconds
      (Timer.block_milliseconds (Timer.block_ms_elapsed m))) =
      { m with
        ms_elapsed := if (m.ms_elapsed + 1) % 256 > 99 then 0 else (m.ms_elapsed + 1) % 256,
        milliseconds :=
          if (if (m.ms_elapsed + 1) % 256 > 99 then (m.milliseconds + 1) % 256
              else m.milliseconds) > 9 then 0
          else (if (m.ms_elapsed + 1) % 256 > 99 then (m.milliseconds + 1) % 256
                else m.milliseconds),
        seconds :=
          if (if (if (m.ms_elapsed + 1) % 256 > 99 then (m.milliseconds + 1) % 256
                  else m.milliseconds) > 9 then (m.seconds + 1) % 256 else m.seconds) > 59
          then 0
          else (if (if (m.ms_elapsed + 1) % 256 > 99 then (m.milliseconds + 1) % 256
                    else m.milliseconds) > 9 then (m.seconds + 1) % 256 else m.seconds),
        minutes :=
          if (if (if (if (m.ms_elapsed + 1) % 256 > 99 then (m.milliseconds + 1) % 256
                      else m.milliseconds) > 9 then (m.seconds + 1) % 256 else m.seconds) > 59
              then (m.minutes + 1) % 256 else m.minutes) > 9 then 0
          else (if (if (if (m.ms_elapsed + 1) % 256 > 99 then (m.milliseconds + 1) % 256
                        else m.milliseconds) > 9 then (m.seconds + 1) % 256 else m.seconds) > 59
                then (m.minutes + 1) % 256 else m.minutes) } := by
  rw [Timer.block_ms_elapsed_eq, Timer.block_milliseconds_eq, Timer.block_seconds_eq,
    Timer.block_minutes_eq]

/-- One tick from a running state with no reset pending whose counters are the
cascading decomposition of `N` yields the decomposition of `N + 1`. -/
theorem tick_decomposition_step (m : Machine) (N : Nat) :
    Timer_0A_Periodic_Task
      { m with ms_elapsed := N % 100, milliseconds := N / 100 % 10,
               seconds := N / 1000 % 60, minutes := N / 60000 % 10,
               start_stopwatch := 1, reset_stopwatch := 0 } =
      { m with ms_elapsed := (N + 1) % 100, milliseconds := (N + 1) / 100 % 10,
               seconds := (N + 1) / 1000 % 60, minutes := (N + 1) / 60000 % 10,
               start_stopwatch := 1, reset_stopwatch := 0 } := by
  rw [Timer_0A_Periodic_Task_blocks, if_pos rfl, Timer.accumulate_eq, Timer.block_reset_eq]
  simp only [Machine.mk.injEq, true_and, and_true, if_false, Nat.zero_ne_one]
  refine ⟨?_, ?_, ?_, ?_⟩ <;> split_ifs <;> omega

/-- From the all-zero running state, `N` ticks yield the cascading decomposition
of `N`, every other component of the state being untouched. -/
theorem ticks_decomposition (m : Machine) (N : Nat) :
    ticks N { m with ms_elapsed := 0, milliseconds := 0, seconds := 0, minutes := 0,
                     start_stopwatch := 1, reset_stopwatch := 0 } =
      { m with ms_elapsed := N % 100, milliseconds := N / 100 % 10,
               seconds := N / 1000 % 60, minutes := N / 60000 % 10,
               start_stopwatch := 1, reset_stopwatch := 0 } := by
  induction N with
  | zero => rfl
  | succ n ih => rw [ticks, ih, tick_decomposition_step]

/-- Claim C1.  From any state whose four stopwatch counters are zero, with
`start_stopwatch = 1` and `reset_stopwatch = 0`, the state after `N` calls of
`Timer_0A_Periodic_Task` has `ms_elapsed = N % 100`,
`milliseconds = N / 100 % 10`, `seconds = N / 1000 % 60`,
`minutes = N / 60000 % 10` and both flags as before, for every `N`; 350 calls
give the counters `(50, 3, 0, 0)` and 6000 calls give `(0, 0, 6, 0)`. -/
theorem C1_ticks_cascading_decomposition (m : Machine)
    (hc : m.counters = (0, 0, 0, 0)) (hs : m.start_stopwatch = 1)
    (hr : m.reset_stopwatch = 0) :
    (∀ N : Nat,
      (ticks N m).ms_elapsed = N % 100 ∧
      (ticks N m).milliseconds = N / 100 % 10 ∧
      (ticks N m).seconds = N / 1000 % 60 ∧
      (ticks N m).minutes = N / 60000 % 10 ∧
      (ticks N m).start_stopwatch = 1 ∧
      (ticks N m).reset_stopwatch = 0) ∧
    (ticks 350 m).counters = (50, 3, 0, 0) ∧
    (ticks 6000 m).counters = (0, 0, 6, 0) := by
  have hm : m = { m with ms_elapsed := 0, milliseconds := 0, seconds := 0, minutes := 0,
                         start_stopwatch := 1, reset_stopwatch := 0 } := by
    obtain ⟨c, a1, a2, a3, a4, st, rs, A, B, D, S, V⟩ := m
    simp only [Machine.counters, Prod.mk.injEq] at hc hs hr
    obtain ⟨h1, h2, h3, h4⟩ := hc
    subst h1 h2 h3 h4 hs hr
    rfl
  have key : ∀ N : Nat, ticks N m =
      { m with ms_elapsed := N % 100, milliseconds := N / 100 % 10,
               seconds := N / 1000 % 60, minutes := N / 60000 % 10,
               start_stopwatch := 1, reset_stopwatch := 0 } := by
    intro N
    conv_lhs => rw [hm]
    exact ticks_decomposition m N
  refine ⟨fun N => ?_, ?_, ?_⟩
  · rw [key N]
    exact ⟨rfl, rfl, rfl, rfl, rfl, rfl⟩
  · rw [key 350]
    simp [Machine.counters]
  · rw [key 6000]
    simp [Machine.counters]

/-- Witness for C1: the state after static initialisation with the run flag
set. -/
theorem C1_ticks_cascading_decomposition_witness :
    ({ Machine.init with start_stopwatch := 1 } : Machine).counters = (0, 0, 0, 0) ∧
    ({ Machine.init with start_stopwatch := 1 } : Machine).start_stopwatch = 1 ∧
    ({ Machine.init with start_stopwatch := 1 } : Machine).reset_stopwatch = 0 ∧
    (ticks 350 { Machine.init with start_stopwatch := 1 }).counters = (50, 3, 0, 0) ∧
    (ticks 6000 { Machine.init with start_stopwatch := 1 }).counters = (0, 0, 6, 0) :=
  ⟨rfl, rfl, rfl,
   (C1_ticks_cascading_decomposition { Machine.init with start_stopwatch := 1 }
      rfl rfl rfl).2⟩

/-- With a reset pending, one tick zeroes the stopwatch and clears both flags,
leaving every other component of the state as it was. -/
theorem tick_reset_eq (m : Machine) (hr : m.reset_stopwatch = 1) :
    Timer_0A_Periodic_Task m =
      { m with ms_elapsed := 0, milliseconds := 0, seconds := 0, minutes := 0,
               start_stopwatch := 0, reset_stopwatch := 0 } := by
  rw [Timer_0A_Periodic_Task_blocks]
  by_cases hs : m.start_stopwatch = 0x01
  · rw [if_pos hs, Timer.accumulate_eq, Timer.block_reset_eq]
    simp [hr]
  · rw [if_neg hs, Timer.block_reset_eq]
    simp [hr]

/-- Claim C2.  For every prior state with `reset_stopwatch = 1`, whatever the
counters and `start_stopwatch` hold, one call of `Timer_0A_Periodic_Task` yields
`ms_elapsed = milliseconds = seconds = minutes = 0`, `start_stopwatch = 0` and
`reset_stopwatch = 0`. -/
theorem C2_tick_reset (m : Machine) (hr : m.reset_stopwatch = 1) :
    (Timer_0A_Periodic_Task m).ms_elapsed = 0 ∧
    (Timer_0A_Periodic_Task m).milliseconds = 0 ∧
    (Timer_0A_Periodic_Task m).seconds = 0 ∧
    (Timer_0A_Periodic_Task m).minutes = 0 ∧
    (Timer_0A_Periodic_Task m).start_stopwatch = 0 ∧
    (Timer_0A_Periodic_Task m).reset_stopwatch = 0 := by
  rw [tick_reset_eq m hr]
  exact ⟨rfl, rfl, rfl, rfl, rfl, rfl⟩

/-- Witness for C2: a running stopwatch at 9:59.9 and 99 subdivisions with a
reset pending. -/
theorem C2_tick_reset_witness :
    ({ Machine.init with ms_elapsed := 99, milliseconds := 9, seconds := 59, minutes := 9,
                         start_stopwatch := 1, reset_stopwatch := 1 } : Machine).reset_stopwatch
      = 1 ∧
    (Timer_0A_Periodic_Task
      { Machine.init with ms_elapsed := 99, milliseconds := 9, seconds := 59, minutes := 9,
                          start_stopwatch := 1, reset_stopwatch := 1 }).shared
      = (0, (0, 0, 0, 0), 0, 0) := by
  refine ⟨rfl, ?_⟩
  obtain ⟨h1, h2, h3, h4, h5, h6⟩ :=
    C2_tick_reset
      { Machine.init with ms_elapsed := 99, milliseconds := 9, seconds := 59, minutes := 9,
                          start_stopwatch := 1, reset_stopwatch := 1 } rfl
  simp only [Machine.shared, Machine.counters, h1, h2, h3, h4, h5, h6]
  rfl

/-- Counterexample to claim C3 as stated.  At `ms_elapsed = 5`,
`milliseconds = 3`, `seconds = 7`, `minutes = 2`, `start_stopwatch = 0`,
`reset_stopwatch = 1` the stopwatch is stopped, yet one call of
`Timer_0A_Periodic_Task` changes the counters from `(5, 3, 7, 2)` to
`(0, 0, 0, 0)`: the reset block (lines 298 to 306) runs whatever
`start_stopwatch` holds. -/
theorem C3_stopped_counters_unchanged_counterexample :
    ({ Machine.init with ms_elapsed := 5, milliseconds := 3, seconds := 7, minutes := 2,
                         start_stopwatch := 0, reset_stopwatch := 1 } : Machine).start_stopwatch
      = 0 ∧
    ({ Machine.init with ms_elapsed := 5, milliseconds := 3, seconds := 7, minutes := 2,
                         start_stopwatch := 0, reset_stopwatch := 1 } : Machine).counters
      = (5, 3, 7, 2) ∧
    (Timer_0A_Periodic_Task
      { Machine.init with ms_elapsed := 5, milliseconds := 3, seconds := 7, minutes := 2,
                          start_stopwatch := 0, reset_stopwatch := 1 }).counters
      = (0, 0, 0, 0) ∧
    (Timer_0A_Periodic_Task
      { Machine.init with ms_elapsed := 5, milliseconds := 3, seconds := 7, minutes := 2,
                          start_stopwatch := 0, reset_stopwatch := 1 }).counters
      ≠ ({ Machine.init with ms_elapsed := 5, milliseconds := 3, seconds := 7, minutes := 2,
                             start_stopwatch := 0, reset_stopwatch := 1 } : Machine).counters := by
  decide

/-- Claim C3, amended.  For every state with `start_stopwatch = 0` and
`reset_stopwatch` different from `1`, one call of `Timer_0A_Periodic_Task`
leaves `ms_elapsed`, `milliseconds`, `seconds` and `minutes` unchanged (the
whole state is unchanged). -/
theorem C3_stopped_no_reset_counters_unchanged (m : Machine)
    (h0 : m.start_stopwatch = 0) (hr : m.reset_stopwatch ≠ 1) :
    (Timer_0A_Periodic_Task m).counters = m.counters ∧ Timer_0A_Periodic_Task m = m := by
  have h : Timer_0A_Periodic_Task m = m := by
    simp [Timer_0A_Periodic_Task, h0, hr]
  rw [h]
  exact ⟨rfl, rfl⟩

/-- Witness for C3: a stopped stopwatch showing 2:07.3 with no reset pending. -/
theorem C3_stopped_no_reset_counters_unchanged_witness :
    ({ Machine.init with ms_elapsed := 5, milliseconds := 3, seconds := 7,
                         minutes := 2 } : Machine).start_stopwatch = 0 ∧
    ({ Machine.init with ms_elapsed := 5, milliseconds := 3, seconds := 7,
                         minutes := 2 } : Machine).reset_stopwatch ≠ 1 ∧
    (Timer_0A_Periodic_Task
      { Machine.init with ms_elapsed := 5, milliseconds := 3, seconds := 7,
                          minutes := 2 }).counters = (5, 3, 7, 2) :=
  ⟨rfl, by decide,
   (C3_stopped_no_reset_counters_unchanged
      { Machine.init with ms_elapsed := 5, milliseconds := 3, seconds := 7, minutes := 2 }
      rfl (by decide)).1⟩

/-- Claim C4.  For every prior state with `start_stopwatch = 1`, whatever the
four counters hold (out-of-range values and 255 included) and whatever
`reset_stopwatch` holds, after one call of `Timer_0A_Periodic_Task`
`ms_elapsed < 100`, `milliseconds < 10`, `seconds < 60` and `minutes < 10`. -/
theorem C4_tick_counters_below_thresholds (m : Machine) (hs : m.start_stopwatch = 1) :
    (Timer_0A_Periodic_Task m).ms_elapsed < 100 ∧
    (Timer_0A_Periodic_Task m).milliseconds < 10 ∧
    (Timer_0A_Periodic_Task m).seconds < 60 ∧
    (Timer_0A_Periodic_Task m).minutes < 10 := by
  rw [Timer_0A_Periodic_Task_blocks, if_pos hs, Timer.accumulate_eq, Timer.block_reset_eq]
  simp only []
  refine ⟨?_, ?_, ?_, ?_⟩ <;> split_ifs <;> omega

/-- Witness for C4: every counter holds 255 before the tick. -/
theorem C4_tick_counters_below_thresholds_witness :
    ({ Machine.init with ms_elapsed := 255, milliseconds := 255, seconds := 255,
                         minutes := 255, start_stopwatch := 1 } : Machine).start_stopwatch = 1 ∧
    (Timer_0A_Periodic_Task
      { Machine.init with ms_elapsed := 255, milliseconds := 255, seconds := 255,
                          minutes := 255, start_stopwatch := 1 }).ms_elapsed < 100 ∧
    (Timer_0A_Periodic_Task
      { Machine.init with ms_elapsed := 255, milliseconds := 255, seconds := 255,
                          minutes := 255, start_stopwatch := 1 }).milliseconds < 10 ∧
    (Timer_0A_Periodic_Task
      { Machine.init with ms_elapsed := 255, milliseconds := 255, seconds := 255,
                          minutes := 255, start_stopwatch := 1 }).seconds < 60 ∧
    (Timer_0A_Periodic_Task
      { Machine.init with ms_elapsed := 255, milliseconds := 255, seconds := 255,
                          minutes := 255, start_stopwatch := 1 }).minutes < 10 :=
  ⟨rfl,
   C4_tick_counters_below_thresholds
     { Machine.init with ms_elapsed := 255, milliseconds := 255, seconds := 255,
                         minutes := 255, start_stopwatch := 1 } rfl⟩

/-! ## The button action dispatchers -/

/-- Claim C5.  For every display counter value `c` with `c ≤ 15`,
`EduBase_Button_Handler(0x08)` sets `counter` to `(c + 1) % 16` and
`EduBase_Button_Handler(0x04)` sets it to `(c + 15) % 16`, changing nothing
else; from 15 the increment yields 0 and from 0 the decrement yields 15. -/
theorem C5_display_counter_wraparound (m : Machine) (hc : m.counter ≤ 15) :
    EduBase_Button_Handler 0x08 m = { m with counter := (m.counter + 1) % 16 } ∧
    EduBase_Button_Handler 0x04 m = { m with counter := (m.counter + 15) % 16 } ∧
    (m.counter = 15 → (EduBase_Button_Handler 0x08 m).counter = 0) ∧
    (m.counter = 0 → (EduBase_Button_Handler 0x04 m).counter = 15) := by
  have inc : EduBase_Button_Handler 0x08 m = { m with counter := (m.counter + 1) % 16 } := by
    simp only [EduBase_Button_Handler, if_true]
    split_ifs with h
    · have e : (m.counter + 1) % 16 = 0 := by omega
      rw [e]
    · have e : (m.counter + 1) % 256 = (m.counter + 1) % 16 := by omega
      rw [e]
  have dec : EduBase_Button_Handler 0x04 m = { m with counter := (m.counter + 15) % 16 } := by
    have h48 : ¬ ((0x04 : Nat) = 0x08) := by decide
    simp only [EduBase_Button_Handler, if_neg h48, if_true]
    split_ifs with h
    · have e : (m.counter + 15) % 16 = 15 := by omega
      rw [e]
    · have e : (m.counter - 1) % 256 = (m.counter + 15) % 16 := by omega
      rw [e]
  refine ⟨inc, dec, fun h => ?_, fun h => ?_⟩
  · rw [inc]; simp [h]
  · rw [dec]; simp [h]

/-- Witness for C5: the two wraparounds, from 15 upward and from 0 downward. -/
theorem C5_display_counter_wraparound_witness :
    ({ Machine.init with counter := 15 } : Machine).counter ≤ 15 ∧
    (EduBase_Button_Handler 0x08 { Machine.init with counter := 15 }).counter = 0 ∧
    (EduBase_Button_Handler 0x04 Machine.init).counter = 15 :=
  ⟨by decide,
   (C5_display_counter_wraparound { Machine.init with counter := 15 } (by decide)).2.2.1 rfl,
   (C5_display_counter_wraparound Machine.init (by decide)).2.2.2 rfl⟩

/-- Claim C6.  For every status value `s` other than `0x04` and `0x08`, and
every state, `EduBase_Button_Handler(s)` leaves the whole state unchanged, in
particular the display counter, the four stopwatch counters and both flags. -/
theorem C6_edubase_dispatch_ignores_unmapped (s : Nat) (m : Machine)
    (h4 : s ≠ 0x04) (h8 : s ≠ 0x08) :
    EduBase_Button_Handler s m = m ∧ (EduBase_Button_Handler s m).shared = m.shared := by
  have h : EduBase_Button_Handler s m = m := by
    simp only [EduBase_Button_Handler, if_neg h8, if_neg h4]
  rw [h]
  exact ⟨rfl, rfl⟩

/-- Witness for C6: the simultaneous-press value `0x0C` on a state with a
non-zero display counter. -/
theorem C6_edubase_dispatch_ignores_unmapped_witness :
    (0x0C : Nat) ≠ 0x04 ∧ (0x0C : Nat) ≠ 0x08 ∧
    EduBase_Button_Handler 0x0C { Machine.init with counter := 7 } =
      { Machine.init with counter := 7 } :=
  ⟨by decide, by decide,
   (C6_edubase_dispatch_ignores_unmapped 0x0C { Machine.init with counter := 7 }
      (by decide) (by decide)).1⟩

/-- Bit `i` of `8` is set exactly when `i = 3`. -/
theorem testBit_eight (i : Nat) : Nat.testBit 8 i = decide (i = 3) := by
  have h : (8 : Nat) = 2 ^ 3 := by norm_num
  rw [h, Nat.testBit_two_pow]
  by_cases hi : i = 3
  · simp [hi]
  · have hi2 : ¬ (3 = i) := fun e => hi e.symm
    simp [hi, hi2]

/-- Claim C7.  For every status value `s` and every 32-bit value `d` of the
GPIOB `DATA` register, `PMOD_BTN_Handler(s)` leaves the register equal to
`d XOR 0x08` when `s = 0x20`, which flips bit 3 and keeps every other bit, and
equal to `d` for every other `s`; in both cases nothing else changes, so the
display counter, the stopwatch counters and the flags are as before. -/
theorem C7_pmod_dispatch_toggles_led (s : Nat) (m : Machine) (hd : m.GPIOB.DATA < 2 ^ 32) :
    (s = 0x20 →
      PMOD_BTN_Handler s m =
        { m with GPIOB := { m.GPIOB with DATA := m.GPIOB.DATA ^^^ 0x08 } }) ∧
    (s ≠ 0x20 → PMOD_BTN_Handler s m = m) ∧
    (PMOD_BTN_Handler s m).shared = m.shared ∧
    (∀ i : Nat, (m.GPIOB.DATA ^^^ 0x08).testBit i =
      xor (m.GPIOB.DATA.testBit i) (decide (i = 3))) := by
  have hx : (m.GPIOB.DATA ^^^ 0x08) % 2 ^ 32 = m.GPIOB.DATA ^^^ 0x08 :=
    Nat.mod_eq_of_lt (Nat.xor_lt_two_pow hd (by norm_num))
  refine ⟨fun h => ?_, fun h => ?_, ?_, fun i => ?_⟩
  · subst h
    simp only [hx, PMOD_BTN_Handler]
    rfl
  · unfold PMOD_BTN_Handler
    split_ifs <;> rfl
  · unfold PMOD_BTN_Handler
    split_ifs <;> rfl
  · rw [Nat.testBit_xor, testBit_eight]

/-- Witness for C7: the recognised code `0x20` with `DATA = 0x0A` (LED bit set)
turns the register into `0x02`, and the two-button value `0x30` leaves it. -/
theorem C7_pmod_dispatch_toggles_led_witness :
    ({ Machine.init with GPIOB := { GPIO_Type.zero with DATA := 0x0A } } : Machine).GPIOB.DATA
      < 2 ^ 32 ∧
    (PMOD_BTN_Handler 0x20
      { Machine.init with GPIOB := { GPIO_Type.zero with DATA := 0x0A } }).GPIOB.DATA = 0x02 ∧
    (PMOD_BTN_Handler 0x30
      { Machine.init with GPIOB := { GPIO_Type.zero with DATA := 0x0A } }).GPIOB.DATA = 0x0A := by
  have h := C7_pmod_dispatch_toggles_led 0x20
    { Machine.init with GPIOB := { GPIO_Type.zero with DATA := 0x0A } } (by decide)
  have k := C7_pmod_dispatch_toggles_led 0x30
    { Machine.init with GPIOB := { GPIO_Type.zero with DATA := 0x0A } } (by decide)
  refine ⟨by decide, ?_, ?_⟩
  · rw [h.1 rfl]; decide
  · rw [k.2.1 (by decide)]

/-! ## The channel handlers -/

/-- The value `PMOD_BTN_Read` returns fits a `uint8_t`, so the conversion keeps
it: it is `GPIOA->DATA & 0x3C`. -/
theorem PMOD_BTN_Read_eq (m : Machine) : PMOD_BTN_Read m = m.GPIOA.DATA &&& 0x3C := by
  have h : m.GPIOA.DATA &&& 0x3C ≤ 0x3C := Nat.and_le_right
  unfold PMOD_BTN_Read
  omega

/-- Claim C8.  When the masked interrupt status of port A has no bit of `0x3C`
set, `GPIOA_Handler` returns the system as it was: no call is added to the
history, and every register, shared variable and task pointer is unchanged.
Likewise for `GPIOD_Handler` when the masked interrupt status of port D has no
bit of `0x0C` set. -/
theorem C8_handler_noop_when_not_pending (s : System)
    (Get_EduBase_Button_Status : Machine → Nat) :
    (s.m.GPIOA.MIS &&& 0x3C = 0 → GPIOA_Handler s = some s) ∧
    (s.m.GPIOD.MIS &&& 0x0C = 0 → GPIOD_Handler Get_EduBase_Button_Status s = some s) := by
  constructor
  · intro h
    simp [GPIOA_Handler, h]
  · intro h
    simp [GPIOD_Handler, h]

/-- Witness for C8: interrupts pending only on pins outside both masks. -/
theorem C8_handler_noop_when_not_pending_witness :
    Examples.nothing_pending.m.GPIOA.MIS &&& 0x3C = 0 ∧
    Examples.nothing_pending.m.GPIOD.MIS &&& 0x0C = 0 ∧
    GPIOA_Handler Examples.nothing_pending = some Examples.nothing_pending ∧
    GPIOD_Handler (fun m => m.GPIOD.DATA &&& 0x0C) Examples.nothing_pending =
      some Examples.nothing_pending :=
  ⟨by decide, by decide,
   (C8_handler_noop_when_not_pending Examples.nothing_pending
      (fun m => m.GPIOD.DATA &&& 0x0C)).1 (by decide),
   (C8_handler_noop_when_not_pending Examples.nothing_pending
      (fun m => m.GPIOD.DATA &&& 0x0C)).2 (by decide)⟩

/-- What `GPIOA_Handler` does when a monitored pin is pending and a task is
registered: one call of the task with `GPIOA->DATA & 0x3C`, then
`GPIOD->ICR |= 0x0C`. -/
theorem GPIOA_Handler_pending (s : System) (t : Task)
    (ht : s.PMOD_BTN_Task = some t) (hp : s.m.GPIOA.MIS &&& 0x3C ≠ 0) :
    GPIOA_Handler s =
      some { s with
        m := { (t (s.m.GPIOA.DATA &&& 0x3C) s.m) with GPIOD :=
          { (t (s.m.GPIOA.DATA &&& 0x3C) s.m).GPIOD with
            ICR := ((t (s.m.GPIOA.DATA &&& 0x3C) s.m).GPIOD.ICR ||| 0x0C) % 2 ^ 32 } },
        calls := s.calls ++ [(TaskSlot.PMOD_BTN_Task, s.m.GPIOA.DATA &&& 0x3C)] } := by
  have hb : (s.m.GPIOA.DATA &&& 0x3C) % 256 = s.m.GPIOA.DATA &&& 0x3C := by
    have h : s.m.GPIOA.DATA &&& 0x3C ≤ 0x3C := Nat.and_le_right
    omega
  simp only [GPIOA_Handler, if_pos hp, call_task, ht, PMOD_BTN_Read_eq, hb]

/-- What `GPIOD_Handler` does when a monitored pin is pending and a task is
registered: one call of the task with the status byte, then
`GPIOD->ICR |= 0x0C`. -/
theorem GPIOD_Handler_pending (G : Machine → Nat) (s : System) (t : Task)
    (ht : s.EduBase_Button_Task = some t) (hp : s.m.GPIOD.MIS &&& 0x0C ≠ 0) :
    GPIOD_Handler G s =
      some { s with
        m := { (t (G s.m % 256) s.m) with GPIOD :=
          { (t (G s.m % 256) s.m).GPIOD with
            ICR := ((t (G s.m % 256) s.m).GPIOD.ICR ||| 0x0C) % 2 ^ 32 } },
        calls := s.calls ++ [(TaskSlot.EduBase_Button_Task, G s.m % 256)] } := by
  simp only [GPIOD_Handler, if_pos hp, call_task, ht]

/-- Both bits of `0x0C` are set in `(x ||| 0x0C) % 2 ^ 32`. -/
theorem or_0C_bits (x : Nat) :
    ((x ||| 0x0C) % 2 ^ 32).testBit 2 = true ∧ ((x ||| 0x0C) % 2 ^ 32).testBit 3 = true := by
  have h2 : Nat.testBit 0x0C 2 = true := by decide
  have h3 : Nat.testBit 0x0C 3 = true := by decide
  constructor <;> rw [Nat.testBit_mod_two_pow, Nat.testBit_or] <;> simp [h2, h3]

/-- The port D channel acknowledges its own pins: after `GPIOD_Handler` has run
the task, bits 2 and 3 of `GPIOD->ICR` are set and the interrupt-clear register
of port A is as the task left it. -/
theorem GPIOD_Handler_acknowledges_own_port (G : Machine → Nat) (s : System) (t : Task)
    (ht : s.EduBase_Button_Task = some t) (hp : s.m.GPIOD.MIS &&& 0x0C ≠ 0) :
    ∃ s1 : System, GPIOD_Handler G s = some s1 ∧
      s1.m.GPIOD.ICR.testBit 2 = true ∧ s1.m.GPIOD.ICR.testBit 3 = true ∧
      s1.m.GPIOA.ICR = (t (G s.m % 256) s.m).GPIOA.ICR := by
  refine ⟨_, GPIOD_Handler_pending G s t ht hp, ?_, ?_, rfl⟩
  · exact (or_0C_bits _).1
  · exact (or_0C_bits _).2

/-- The port A channel does not acknowledge its own pins: whatever task is
registered, after `GPIOA_Handler` the interrupt-clear register of port A is as
the task left it, and `0x0C` has been ORed into the one of port D. -/
theorem GPIOA_Handler_acknowledges_port_D (s : System) (t : Task)
    (ht : s.PMOD_BTN_Task = some t) (hp : s.m.GPIOA.MIS &&& 0x3C ≠ 0) :
    ∃ s1 : System, GPIOA_Handler s = some s1 ∧
      s1.m.GPIOA.ICR = (t (s.m.GPIOA.DATA &&& 0x3C) s.m).GPIOA.ICR ∧
      s1.m.GPIOD.ICR = ((t (s.m.GPIOA.DATA &&& 0x3C) s.m).GPIOD.ICR ||| 0x0C) % 2 ^ 32 :=
  ⟨_, GPIOA_Handler_pending s t ht hp, rfl, rfl⟩

/-- Claim C9, evaluated at an input where the code departs from it.  With BTN3
pending on port A (`GPIOA->MIS = 0x20`), all interrupt-clear registers reading
zero and `PMOD_BTN_Handler` registered, `GPIOA_Handler` returns with
`GPIOA->ICR` still `0`, so none of the bits `0x3C` was written there, and with
`GPIOD->ICR = 0x0C`: the acknowledge went to port D, with the mask of port D. -/
theorem C9_gpioa_handler_acknowledge_at_btn3_pending :
    Examples.btn3_pending.m.GPIOA.MIS &&& 0x3C = 0x20 ∧
    Examples.btn3_pending.m.GPIOA.ICR = 0 ∧
    Examples.btn3_pending.m.GPIOD.ICR = 0 ∧
    (GPIOA_Handler Examples.btn3_pending).map (fun r => (r.m.GPIOA.ICR, r.m.GPIOD.ICR)) =
      some (0, 0x0C) := by
  decide

/-- The GPIOB `DATA` register after `PMOD_BTN_Handler`. -/
theorem PMOD_BTN_Handler_GPIOB_DATA (a : Nat) (m : Machine) :
    (PMOD_BTN_Handler a m).GPIOB.DATA =
      if a = 0x20 then (m.GPIOB.DATA ^^^ 0x08) % 2 ^ 32 else m.GPIOB.DATA := by
  unfold PMOD_BTN_Handler
  split_ifs <;> first | rfl | omega

/-- Claim C10.  Whenever the masked interrupt status of port A has a bit of
`0x3C` set and a task is registered, `GPIOA_Handler` returns, having called the
task exactly once, with the argument `GPIOA->DATA & 0x3C` read from port A, and
having then ORed `0x0C` into `GPIOD->ICR`.  With `PMOD_BTN_Handler` registered,
bit 3 of `GPIOB->DATA` afterwards differs from its value before exactly when
`GPIOA->DATA & 0x3C = 0x20`. -/
theorem C10_gpioa_handler_calls_task_once (s : System) (t : Task)
    (ht : s.PMOD_BTN_Task = some t) (hp : s.m.GPIOA.MIS &&& 0x3C ≠ 0) :
    ∃ s1 : System, GPIOA_Handler s = some s1 ∧
      s1.calls = s.calls ++ [(TaskSlot.PMOD_BTN_Task, s.m.GPIOA.DATA &&& 0x3C)] ∧
      s1.m = { (t (s.m.GPIOA.DATA &&& 0x3C) s.m) with GPIOD :=
                { (t (s.m.GPIOA.DATA &&& 0x3C) s.m).GPIOD with
                  ICR := ((t (s.m.GPIOA.DATA &&& 0x3C) s.m).GPIOD.ICR ||| 0x0C) % 2 ^ 32 } } ∧
      (t = PMOD_BTN_Handler →
        s1.m.GPIOB.DATA =
          (if s.m.GPIOA.DATA &&& 0x3C = 0x20 then (s.m.GPIOB.DATA ^^^ 0x08) % 2 ^ 32
           else s.m.GPIOB.DATA) ∧
        s1.m.GPIOB.DATA.testBit 3 =
          xor (s.m.GPIOB.DATA.testBit 3) (decide (s.m.GPIOA.DATA &&& 0x3C = 0x20))) := by
  refine ⟨_, GPIOA_Handler_pending s t ht hp, rfl, rfl, fun h => ?_⟩
  subst h
  have hd := PMOD_BTN_Handler_GPIOB_DATA (s.m.GPIOA.DATA &&& 0x3C) s.m
  refine ⟨hd, ?_⟩
  show (PMOD_BTN_Handler (s.m.GPIOA.DATA &&& 0x3C) s.m).GPIOB.DATA.testBit 3 = _
  rw [hd]
  by_cases ha : s.m.GPIOA.DATA &&& 0x3C = 0x20
  · rw [if_pos ha, Nat.testBit_mod_two_pow, Nat.testBit_xor, testBit_eight]
    simp [ha]
  · rw [if_neg ha]
    simp [ha]

/-- Witness for C10: BTN3 pending with `PMOD_BTN_Handler` registered; the task
is called once with `0x20` and the LED bit goes from 0 to 1. -/
theorem C10_gpioa_handler_calls_task_once_witness :
    Examples.btn3_pending.PMOD_BTN_Task = some PMOD_BTN_Handler ∧
    Examples.btn3_pending.m.GPIOA.MIS &&& 0x3C ≠ 0 ∧
    ∃ s1 : System, GPIOA_Handler Examples.btn3_pending = some s1 ∧
      s1.calls = [(TaskSlot.PMOD_BTN_Task, 0x20)] ∧ s1.m.GPIOB.DATA = 0x08 := by
  obtain ⟨s1, h1, h2, _, h4⟩ :=
    C10_gpioa_handler_calls_task_once Examples.btn3_pending PMOD_BTN_Handler rfl (by decide)
  refine ⟨rfl, by decide, s1, h1, ?_, ?_⟩
  · rw [h2]; decide
  · rw [(h4 rfl).1]; decide

/-! ## The display counter -/

/-- The increment case of `EduBase_Button_Handler` on the display range. -/
theorem EduBase_Button_Handler_increment (m : Machine) (hc : m.counter ≤ 15) :
    EduBase_Button_Handler 0x08 m = { m with counter := (m.counter + 1) % 16 } := by
  simp only [EduBase_Button_Handler, if_true]
  split_ifs with h
  · have e : (m.counter + 1) % 16 = 0 := by omega
    rw [e]
  · have e : (m.counter + 1) % 256 = (m.counter + 1) % 16 := by omega
    rw [e]

/-- The decrement case of `EduBase_Button_Handler` on the display range. -/
theorem EduBase_Button_Handler_decrement (m : Machine) (hc : m.counter ≤ 15) :
    EduBase_Button_Handler 0x04 m = { m with counter := (m.counter + 15) % 16 } := by
  have h48 : ¬ ((0x04 : Nat) = 0x08) := by decide
  simp only [EduBase_Button_Handler, if_neg h48, if_true]
  split_ifs with h
  · have e : (m.counter + 15) % 16 = 15 := by omega
    rw [e]
  · have e : (m.counter - 1) % 256 = (m.counter + 15) % 16 := by omega
    rw [e]

/-- `EduBase_Button_Handler` keeps the display counter in `0..15`, whatever the
status value. -/
theorem EduBase_Button_Handler_counter_le (s : Nat) (m : Machine) (hc : m.counter ≤ 15) :
    (EduBase_Button_Handler s m).counter ≤ 15 := by
  unfold EduBase_Button_Handler
  split_ifs <;> first | omega | (dsimp only; omega)

/-- `PMOD_BTN_Handler` does not write the display counter. -/
theorem PMOD_BTN_Handler_counter (s : Nat) (m : Machine) :
    (PMOD_BTN_Handler s m).counter = m.counter := by
  unfold PMOD_BTN_Handler
  split_ifs <;> rfl

/-- `Timer_0A_Periodic_Task` does not write the display counter. -/
theorem Timer_0A_Periodic_Task_counter (m : Machine) :
    (Timer_0A_Periodic_Task m).counter = m.counter := by
  rw [Timer_0A_Periodic_Task_blocks, Timer.block_reset_eq]
  by_cases hs : m.start_stopwatch = 0x01
  · rw [if_pos hs, Timer.accumulate_eq]
  · rw [if_neg hs]

/-- Every event keeps the display counter in `0..15`. -/
theorem Event.run_counter_le (e : Event) (m : Machine) (hc : m.counter ≤ 15) :
    (e.run m).counter ≤ 15 := by
  cases e with
  | EduBase_Button status => exact EduBase_Button_Handler_counter_le _ m hc
  | PMOD_BTN status =>
    exact (PMOD_BTN_Handler_counter (status % 256) m).le.trans hc
  | Timer_0A =>
    exact (Timer_0A_Periodic_Task_counter m).le.trans hc

/-- Every sequence of events keeps the display counter in `0..15`. -/
theorem run_events_counter_le (es : List Event) (m : Machine) (hc : m.counter ≤ 15) :
    (run_events es m).counter ≤ 15 := by
  induction es generalizing m with
  | nil => exact hc
  | cons e es ih => exact ih (e.run m) (Event.run_counter_le e m hc)

/-- Claim C13.  From a display counter `c ≤ 15`, after `EduBase_Button_Handler(s)`
or `PMOD_BTN_Handler(s)` with any status value `s` the counter is still at most
15; hence it is at most 15 after every sequence of button dispatches and timer
ticks that starts from such a state, the initial one (`counter = 0`)
included. -/
theorem C13_display_counter_stays_in_range (m : Machine) (hc : m.counter ≤ 15) :
    (∀ s : Nat, (EduBase_Button_Handler s m).counter ≤ 15 ∧
                (PMOD_BTN_Handler s m).counter ≤ 15) ∧
    (∀ es : List Event, (run_events es m).counter ≤ 15) := by
  exact ⟨fun s => ⟨EduBase_Button_Handler_counter_le s m hc,
                   (PMOD_BTN_Handler_counter s m).le.trans hc⟩,
         fun es => run_events_counter_le es m hc⟩

/-- Witness for C13: from the initial state, a decrement (to 15), an increment
(to 0), a tick, the LED toggle and a decrement again. -/
theorem C13_display_counter_stays_in_range_witness :
    Machine.init.counter = 0 ∧ Machine.init.counter ≤ 15 ∧
    (run_events [Event.EduBase_Button 0x04, Event.EduBase_Button 0x08, Event.Timer_0A,
                 Event.PMOD_BTN 0x20, Event.EduBase_Button 0x04] Machine.init).counter ≤ 15 :=
  ⟨rfl, by decide,
   (C13_display_counter_stays_in_range Machine.init (by decide)).2
     [Event.EduBase_Button 0x04, Event.EduBase_Button 0x08, Event.Timer_0A,
      Event.PMOD_BTN 0x20, Event.EduBase_Button 0x04]⟩

/-- Claim C17.  For every display counter value `c ≤ 15`,
`EduBase_Button_Handler(0x08)` followed by `EduBase_Button_Handler(0x04)`
restores the state, and so does `EduBase_Button_Handler(0x04)` followed by
`EduBase_Button_Handler(0x08)`. -/
theorem C17_increment_decrement_inverse (m : Machine) (hc : m.counter ≤ 15) :
    EduBase_Button_Handler 0x04 (EduBase_Button_Handler 0x08 m) = m ∧
    EduBase_Button_Handler 0x08 (EduBase_Button_Handler 0x04 m) = m := by
  have hi : (EduBase_Button_Handler 0x08 m).counter ≤ 15 :=
    EduBase_Button_Handler_counter_le _ m hc
  have hd : (EduBase_Button_Handler 0x04 m).counter ≤ 15 :=
    EduBase_Button_Handler_counter_le _ m hc
  constructor
  · rw [EduBase_Button_Handler_decrement _ hi, EduBase_Button_Handler_increment m hc]
    obtain ⟨c, a1, a2, a3, a4, st, rs, A, B, D, S, V⟩ := m
    simp only [Machine.mk.injEq, and_true] at hc ⊢
    omega
  · rw [EduBase_Button_Handler_increment _ hd, EduBase_Button_Handler_decrement m hc]
    obtain ⟨c, a1, a2, a3, a4, st, rs, A, B, D, S, V⟩ := m
    simp only [Machine.mk.injEq, and_true] at hc ⊢
    omega

/-- Witness for C17: the two wraparound values, 15 and 0. -/
theorem C17_increment_decrement_inverse_witness :
    ({ Machine.init with counter := 15 } : Machine).counter ≤ 15 ∧
    Machine.init.counter ≤ 15 ∧
    EduBase_Button_Handler 0x04 (EduBase_Button_Handler 0x08 { Machine.init with counter := 15 })
      = { Machine.init with counter := 15 } ∧
    EduBase_Button_Handler 0x08 (EduBase_Button_Handler 0x04 Machine.init) = Machine.init :=
  ⟨by decide, by decide,
   (C17_increment_decrement_inverse { Machine.init with counter := 15 } (by decide)).1,
   (C17_increment_decrement_inverse Machine.init (by decide)).2⟩

/-! ## Rollovers in one tick -/

/-- The four counters after one tick from an in-range running state with no
reset pending. -/
theorem tick_in_range_fields (m : Machine)
    (h1 : m.ms_elapsed ≤ 99) (h2 : m.milliseconds ≤ 9) (h3 : m.seconds ≤ 59)
    (h4 : m.minutes ≤ 9) (hs : m.start_stopwatch = 1) (hr : m.reset_stopwatch = 0) :
    (Timer_0A_Periodic_Task m).ms_elapsed =
      (if m.ms_elapsed = 99 then 0 else m.ms_elapsed + 1) ∧
    (Timer_0A_Periodic_Task m).milliseconds =
      (if m.ms_elapsed = 99 then (if m.milliseconds = 9 then 0 else m.milliseconds + 1)
       else m.milliseconds) ∧
    (Timer_0A_Periodic_Task m).seconds =
      (if m.ms_elapsed = 99 ∧ m.milliseconds = 9 then
         (if m.seconds = 59 then 0 else m.seconds + 1)
       else m.seconds) ∧
    (Timer_0A_Periodic_Task m).minutes =
      (if m.ms_elapsed = 99 ∧ m.milliseconds = 9 ∧ m.seconds = 59 then
         (if m.minutes = 9 then 0 else m.minutes + 1)
       else m.minutes) := by
  rw [Timer_0A_Periodic_Task_blocks, if_pos hs, Timer.accumulate_eq, Timer.block_reset_eq]
  simp only [hr, if_false, Nat.zero_ne_one]
  refine ⟨?_, ?_, ?_, ?_⟩ <;> split_ifs <;> omega

/-- Counterexample to claim C15 as stated.  The state `ms_elapsed = 99`,
`milliseconds = 9`, `seconds = 59`, `minutes = 9`, `start_stopwatch = 1`,
`reset_stopwatch = 0` is in range, and one call of `Timer_0A_Periodic_Task`
takes all four counters from their maximum to `0`: four rollover events in one
call, the counters afterwards being `(0, 0, 0, 0)`. -/
theorem C15_single_rollover_counterexample :
    ({ Machine.init with ms_elapsed := 99, milliseconds := 9, seconds := 59, minutes := 9,
                         start_stopwatch := 1 } : Machine).counters = (99, 9, 59, 9) ∧
    ({ Machine.init with ms_elapsed := 99, milliseconds := 9, seconds := 59, minutes := 9,
                         start_stopwatch := 1 } : Machine).start_stopwatch = 1 ∧
    ({ Machine.init with ms_elapsed := 99, milliseconds := 9, seconds := 59, minutes := 9,
                         start_stopwatch := 1 } : Machine).reset_stopwatch = 0 ∧
    (Timer_0A_Periodic_Task
      { Machine.init with ms_elapsed := 99, milliseconds := 9, seconds := 59, minutes := 9,
                          start_stopwatch := 1 }).counters = (0, 0, 0, 0) ∧
    rollovers
      { Machine.init with ms_elapsed := 99, milliseconds := 9, seconds := 59, minutes := 9,
                          start_stopwatch := 1 }
      (Timer_0A_Periodic_Task
        { Machine.init with ms_elapsed := 99, milliseconds := 9, seconds := 59, minutes := 9,
                            start_stopwatch := 1 }) = 4 := by
  decide

/-- Claim C15, amended.  For every in-range state with `start_stopwatch = 1` and
`reset_stopwatch = 0`, one call of `Timer_0A_Periodic_Task` rolls counters over
only as a cascade from the bottom: `ms_elapsed` goes from 99 to 0 exactly when
it was 99; `milliseconds` goes from 9 to 0 exactly when also `ms_elapsed` was
99; `seconds` goes from 59 to 0 exactly when also the two below were at their
maximum; `minutes` goes from 9 to 0 exactly when all four were.  The call
produces at most one rollover event exactly when `ms_elapsed` and
`milliseconds` were not both at their maximum, and never more than four. -/
theorem C15_rollovers_cascade (m : Machine)
    (h1 : m.ms_elapsed ≤ 99) (h2 : m.milliseconds ≤ 9) (h3 : m.seconds ≤ 59)
    (h4 : m.minutes ≤ 9) (hs : m.start_stopwatch = 1) (hr : m.reset_stopwatch = 0) :
    ((m.ms_elapsed = 99 ∧ (Timer_0A_Periodic_Task m).ms_elapsed = 0) ↔ m.ms_elapsed = 99) ∧
    ((m.milliseconds = 9 ∧ (Timer_0A_Periodic_Task m).milliseconds = 0) ↔
      (m.ms_elapsed = 99 ∧ m.milliseconds = 9)) ∧
    ((m.seconds = 59 ∧ (Timer_0A_Periodic_Task m).seconds = 0) ↔
      (m.ms_elapsed = 99 ∧ m.milliseconds = 9 ∧ m.seconds = 59)) ∧
    ((m.minutes = 9 ∧ (Timer_0A_Periodic_Task m).minutes = 0) ↔
      (m.ms_elapsed = 99 ∧ m.milliseconds = 9 ∧ m.seconds = 59 ∧ m.minutes = 9)) ∧
    (rollovers m (Timer_0A_Periodic_Task m) ≤ 1 ↔
      ¬ (m.ms_elapsed = 99 ∧ m.milliseconds = 9)) ∧
    rollovers m (Timer_0A_Periodic_Task m) ≤ 4 := by
  obtain ⟨e1, e2, e3, e4⟩ := tick_in_range_fields m h1 h2 h3 h4 hs hr
  unfold rollovers
  rw [e1, e2, e3, e4]
  by_cases c1 : m.ms_elapsed = 99 <;> by_cases c2 : m.milliseconds = 9 <;>
    by_cases c3 : m.seconds = 59 <;> by_cases c4 : m.minutes = 9 <;>
    simp [c1, c2, c3, c4]

/-- Witness for C15: at 0:05.9 and 99 subdivisions the tick rolls `ms_elapsed`
and `milliseconds` over, two events; at 0:05.3 and 99 subdivisions only
`ms_elapsed`, one event. -/
theorem C15_rollovers_cascade_witness :
    rollovers
      { Machine.init with ms_elapsed := 99, milliseconds := 3, seconds := 5,
                          start_stopwatch := 1 }
      (Timer_0A_Periodic_Task
        { Machine.init with ms_elapsed := 99, milliseconds := 3, seconds := 5,
                            start_stopwatch := 1 }) ≤ 1 ∧
    rollovers
      { Machine.init with ms_elapsed := 99, milliseconds := 9, seconds := 5,
                          start_stopwatch := 1 }
      (Timer_0A_Periodic_Task
        { Machine.init with ms_elapsed := 99, milliseconds := 9, seconds := 5,
                            start_stopwatch := 1 }) ≤ 4 :=
  ⟨(C15_rollovers_cascade
      { Machine.init with ms_elapsed := 99, milliseconds := 3, seconds := 5,
                          start_stopwatch := 1 }
      (by decide) (by decide) (by decide) (by decide) rfl rfl).2.2.2.2.1.2 (by decide),
   (C15_rollovers_cascade
      { Machine.init with ms_elapsed := 99, milliseconds := 9, seconds := 5,
                          start_stopwatch := 1 }
      (by decide) (by decide) (by decide) (by decide) rfl rfl).2.2.2.2.2⟩

/-! ## The display digits -/

/-- Claim C18.  For every state with `milliseconds ≤ 9`, `seconds ≤ 59` and
`minutes ≤ 9`, `Calculate_Stopwatch_Value` stores `milliseconds`,
`seconds % 10`, `seconds / 10` and `minutes` in entries 0 to 3 of the array and
leaves the other entries; each stored entry is at most 9 and entry 2 at most 5;
`seconds = 10 * entry 2 + entry 1`; the machine, so every stopwatch counter and
flag, is unchanged. -/
theorem C18_calculate_stopwatch_value (v : Nat → Nat) (m : Machine)
    (h1 : m.milliseconds ≤ 9) (h2 : m.seconds ≤ 59) (h3 : m.minutes ≤ 9) :
    (Calculate_Stopwatch_Value v m).1 0 = m.milliseconds ∧
    (Calculate_Stopwatch_Value v m).1 1 = m.seconds % 10 ∧
    (Calculate_Stopwatch_Value v m).1 2 = m.seconds / 10 ∧
    (Calculate_Stopwatch_Value v m).1 3 = m.minutes ∧
    (∀ i : Nat, 4 ≤ i → (Calculate_Stopwatch_Value v m).1 i = v i) ∧
    (Calculate_Stopwatch_Value v m).1 0 ≤ 9 ∧
    (Calculate_Stopwatch_Value v m).1 1 ≤ 9 ∧
    (Calculate_Stopwatch_Value v m).1 2 ≤ 5 ∧
    (Calculate_Stopwatch_Value v m).1 3 ≤ 9 ∧
    m.seconds = 10 * (Calculate_Stopwatch_Value v m).1 2 +
      (Calculate_Stopwatch_Value v m).1 1 ∧
    (Calculate_Stopwatch_Value v m).2 = m := by
  have e0 : (Calculate_Stopwatch_Value v m).1 0 = m.milliseconds := by
    simp [Calculate_Stopwatch_Value, Function.update_apply]
    omega
  have e1 : (Calculate_Stopwatch_Value v m).1 1 = m.seconds % 10 := by
    simp [Calculate_Stopwatch_Value, Function.update_apply]
    omega
  have e2 : (Calculate_Stopwatch_Value v m).1 2 = m.seconds / 10 := by
    simp [Calculate_Stopwatch_Value, Function.update_apply]
    omega
  have e3 : (Calculate_Stopwatch_Value v m).1 3 = m.minutes := by
    simp [Calculate_Stopwatch_Value, Function.update_apply]
    omega
  refine ⟨e0, e1, e2, e3, fun i hi => ?_, ?_, ?_, ?_, ?_, ?_, rfl⟩
  · simp only [Calculate_Stopwatch_Value, Function.update_apply]
    have i0 : i ≠ 0 := by omega
    have i1 : i ≠ 1 := by omega
    have i2 : i ≠ 2 := by omega
    have i3 : i ≠ 3 := by omega
    simp only [if_neg i0, if_neg i1, if_neg i2, if_neg i3]
  · rw [e0]; exact h1
  · rw [e1]; omega
  · rw [e2]; omega
  · rw [e3]; exact h3
  · rw [e1, e2]; omega

/-- Witness for C18: the stopwatch at 7:42.5 and a caller array holding 255 in
every cell. -/
theorem C18_calculate_stopwatch_value_witness :
    ({ Machine.init with milliseconds := 5, seconds := 42, minutes := 7 } : Machine).seconds
      ≤ 59 ∧
    (Calculate_Stopwatch_Value (fun _ => 255)
      { Machine.init with milliseconds := 5, seconds := 42, minutes := 7 }).1 0 = 5 ∧
    (Calculate_Stopwatch_Value (fun _ => 255)
      { Machine.init with milliseconds := 5, seconds := 42, minutes := 7 }).1 1 = 2 ∧
    (Calculate_Stopwatch_Value (fun _ => 255)
      { Machine.init with milliseconds := 5, seconds := 42, minutes := 7 }).1 2 = 4 ∧
    (Calculate_Stopwatch_Value (fun _ => 255)
      { Machine.init with milliseconds := 5, seconds := 42, minutes := 7 }).1 3 = 7 := by
  obtain ⟨e0, e1, e2, e3, _⟩ :=
    C18_calculate_stopwatch_value (fun _ => 255)
      { Machine.init with milliseconds := 5, seconds := 42, minutes := 7 }
      (by decide) (by decide) (by decide)
  exact ⟨by decide, e0, e1, e2, e3⟩

/-! ## Register arithmetic -/

/-- Setting bits twice is setting them once. -/
theorem or32_idem (x c : Nat) : or32 (or32 x c) c = or32 x c := by
  apply Nat.eq_of_testBit_eq
  intro i
  simp only [or32, Nat.testBit_mod_two_pow, Nat.testBit_or]
  generalize decide (i < 32) = a
  generalize x.testBit i = b
  generalize c.testBit i = d
  revert a b d
  decide

/-- Masking twice is masking once. -/
theorem and32_idem (x c : Nat) : and32 (and32 x c) c = and32 x c := by
  apply Nat.eq_of_testBit_eq
  intro i
  simp only [and32, Nat.testBit_mod_two_pow, Nat.testBit_and]
  generalize decide (i < 32) = a
  generalize x.testBit i = b
  generalize c.testBit i = d
  revert a b d
  decide

/-- A mask followed by a set, done twice, is the same as done once. -/
theorem or32_and32_idem (x a b : Nat) :
    or32 (and32 (or32 (and32 x a) b) a) b = or32 (and32 x a) b := by
  apply Nat.eq_of_testBit_eq
  intro i
  simp only [or32, and32, Nat.testBit_mod_two_pow, Nat.testBit_or, Nat.testBit_and]
  generalize decide (i < 32) = p
  generalize x.testBit i = q
  generalize a.testBit i = r
  generalize b.testBit i = t
  revert p q r t
  decide

/-- The bits of `~c` on 32 bits. -/
theorem testBit_not32 (c i : Nat) (hc : c < 2 ^ 32) :
    (not32 c).testBit i = (decide (i < 32) && !c.testBit i) := by
  have h : not32 c = 2 ^ 32 - (c + 1) := by unfold not32; omega
  rw [h, Nat.testBit_two_pow_sub_succ hc]

/-- After `reg &= ~c` no bit of `c` is set in `reg`. -/
theorem and32_not32_clears (x c : Nat) (hc : c < 2 ^ 32) : and32 x (not32 c) &&& c = 0 := by
  apply Nat.eq_of_testBit_eq
  intro i
  simp only [and32, Nat.testBit_and, Nat.testBit_mod_two_pow, testBit_not32 c i hc,
    Nat.zero_testBit]
  generalize decide (i < 32) = p
  generalize x.testBit i = q
  generalize c.testBit i = r
  revert p q r
  decide

/-- After `reg |= c` every bit of `c` is set in `reg`. -/
theorem or32_sets (x c : Nat) (hc : c < 2 ^ 32) : or32 x c &&& c = c := by
  apply Nat.eq_of_testBit_eq
  intro i
  simp only [or32, Nat.testBit_and, Nat.testBit_mod_two_pow, Nat.testBit_or]
  by_cases hi : i < 32
  · simp only [hi, decide_True, Bool.true_and]
    generalize x.testBit i = q
    generalize c.testBit i = r
    revert q r
    decide
  · have hci : c.testBit i = false :=
      Nat.testBit_lt_two_pow (Nat.lt_of_lt_of_le hc (Nat.pow_le_pow_right (by decide) (by omega)))
    simp [hi, hci]

/-! ## Initialisation -/

/-- The system after `EduBase_Button_Interrupt_Init`, register by register. -/
theorem EduBase_Button_Interrupt_Init_eq (task : Option Task) (s : System) :
    EduBase_Button_Interrupt_Init task s =
      { s with
        EduBase_Button_Task := task,
        m := { s.m with
          SYSCTL := { RCGCGPIO := or32 s.m.SYSCTL.RCGCGPIO 0x08 },
          GPIOD := { s.m.GPIOD with
            DIR := and32 s.m.GPIOD.DIR (not32 0x0C),
            AFSEL := and32 s.m.GPIOD.AFSEL (not32 0x0C),
            DEN := or32 s.m.GPIOD.DEN 0x0C,
            PDR := or32 s.m.GPIOD.PDR 0x0C,
            IS := and32 s.m.GPIOD.IS (not32 0x0C),
            IBE := and32 s.m.GPIOD.IBE (not32 0x0C),
            IEV := or32 s.m.GPIOD.IEV 0x0C,
            ICR := or32 s.m.GPIOD.ICR 0x0C,
            IM := or32 s.m.GPIOD.IM 0x0C },
          NVIC := {
            IPR0 := or32 (and32 s.m.NVIC.IPR0 (not64 0xE00000000)) (3 <<< 29),
            ISER0 := or32 s.m.NVIC.ISER0 (1 <<< 3) } } } := rfl

/-- The system after `PMOD_BTN_Interrupt_Init`, register by register: the port
written is `GPIOD`. -/
theorem PMOD_BTN_Interrupt_Init_eq (task : Option Task) (s : System) :
    PMOD_BTN_Interrupt_Init task s =
      { s with
        PMOD_BTN_Task := task,
        m := { s.m with
          SYSCTL := { RCGCGPIO := or32 s.m.SYSCTL.RCGCGPIO 0x01 },
          GPIOD := { s.m.GPIOD with
            DIR := and32 s.m.GPIOD.DIR (not32 0x3C),
            AFSEL := and32 s.m.GPIOD.AFSEL (not32 0x3C),
            DEN := or32 s.m.GPIOD.DEN 0x3C,
            PDR := or32 s.m.GPIOD.PDR 0x3C,
            IS := and32 s.m.GPIOD.IS (not32 0x3C),
            IBE := and32 s.m.GPIOD.IBE (not32 0x3C),
            IEV := or32 s.m.GPIOD.IEV 0x3C,
            ICR := or32 s.m.GPIOD.ICR 0x3C,
            IM := or32 s.m.GPIOD.IM 0x0C },
          NVIC := {
            IPR0 := or32 (and32 s.m.NVIC.IPR0 (not32 0x0000000E0)) (3 <<< 5),
            ISER0 := or32 s.m.NVIC.ISER0 (1 <<< 0) } } } := rfl

/-- `PMOD_BTN_Interrupt_Init` writes no register of port A. -/
theorem PMOD_BTN_Interrupt_Init_GPIOA (task : Option Task) (s : System) :
    (PMOD_BTN_Interrupt_Init task s).m.GPIOA = s.m.GPIOA := rfl

/-- `EduBase_Button_Interrupt_Init` applies the rising-edge configuration to its
own pins: on port D the bits `0x0C` are clear in `DIR`, `AFSEL`, `IS` and `IBE`
and set in `DEN`, `IEV` and `IM`. -/
theorem EduBase_Button_Interrupt_Init_configures_port_D (task : Option Task) (s : System) :
    (EduBase_Button_Interrupt_Init task s).m.GPIOD.DIR &&& 0x0C = 0 ∧
    (EduBase_Button_Interrupt_Init task s).m.GPIOD.AFSEL &&& 0x0C = 0 ∧
    (EduBase_Button_Interrupt_Init task s).m.GPIOD.IS &&& 0x0C = 0 ∧
    (EduBase_Button_Interrupt_Init task s).m.GPIOD.IBE &&& 0x0C = 0 ∧
    (EduBase_Button_Interrupt_Init task s).m.GPIOD.DEN &&& 0x0C = 0x0C ∧
    (EduBase_Button_Interrupt_Init task s).m.GPIOD.IEV &&& 0x0C = 0x0C ∧
    (EduBase_Button_Interrupt_Init task s).m.GPIOD.IM &&& 0x0C = 0x0C := by
  have hc : (0x0C : Nat) < 2 ^ 32 := by norm_num
  rw [EduBase_Button_Interrupt_Init_eq]
  exact ⟨and32_not32_clears _ _ hc, and32_not32_clears _ _ hc, and32_not32_clears _ _ hc,
    and32_not32_clears _ _ hc, or32_sets _ _ hc, or32_sets _ _ hc, or32_sets _ _ hc⟩

/-- Claim C11, evaluated at an input where the code departs from it.  Port A
starts with the bits `0x3C` set in `DIR`, `AFSEL`, `IS`, `IBE` and clear in
`DEN`, `IEV`, `IM`; port D starts at zero.  After `PMOD_BTN_Interrupt_Init` port
A is exactly as before, so none of PA2 to PA5 is configured or unmasked, while
port D has `0x3C` set in `DEN` and `IEV` and `0x0C` set in `IM`. -/
theorem C11_pmod_init_at_port_A_unconfigured :
    (PMOD_BTN_Interrupt_Init (some PMOD_BTN_Handler) Examples.port_A_unconfigured).m.GPIOA =
      { GPIO_Type.zero with DIR := 0x3C, AFSEL := 0x3C, IS := 0x3C, IBE := 0x3C } ∧
    (PMOD_BTN_Interrupt_Init (some PMOD_BTN_Handler) Examples.port_A_unconfigured).m.GPIOA.DEN
      &&& 0x3C = 0 ∧
    (PMOD_BTN_Interrupt_Init (some PMOD_BTN_Handler) Examples.port_A_unconfigured).m.GPIOA.IEV
      &&& 0x3C = 0 ∧
    (PMOD_BTN_Interrupt_Init (some PMOD_BTN_Handler) Examples.port_A_unconfigured).m.GPIOA.IM
      &&& 0x3C = 0 ∧
    (PMOD_BTN_Interrupt_Init (some PMOD_BTN_Handler) Examples.port_A_unconfigured).m.GPIOD =
      { GPIO_Type.zero with DEN := 0x3C, PDR := 0x3C, IEV := 0x3C, ICR := 0x3C, IM := 0x0C } := by
  decide

/-! ## The interrupt priority -/

/-- The low 32 bits of `~0xE00000000` are all set. -/
theorem testBit_not64_low (i : Nat) (hi : i < 32) :
    (not64 0xE00000000).testBit i = true := by
  interval_cases i <;> decide

/-- Lines 68 and 71 of `EduBase_Button_Interrupt.c` together: the mask of line
68 clears no bit of the register, so `IPR[0]` ends as `IPR[0] | 0x60000000`. -/
theorem EduBase_Button_Interrupt_Init_IPR0 (task : Option Task) (s : System) :
    (EduBase_Button_Interrupt_Init task s).m.NVIC.IPR0 = or32 s.m.NVIC.IPR0 0x60000000 := by
  rw [EduBase_Button_Interrupt_Init_eq]
  show or32 (and32 s.m.NVIC.IPR0 (not64 0xE00000000)) (3 <<< 29) = _
  have h29 : (3 <<< 29 : Nat) = 0x60000000 := by decide
  rw [h29]
  apply Nat.eq_of_testBit_eq
  intro i
  simp only [or32, and32, Nat.testBit_mod_two_pow, Nat.testBit_or, Nat.testBit_and]
  by_cases hi : i < 32
  · simp [hi, testBit_not64_low i hi]
  · simp [hi]

/-- Bit `i` of `0xE0` is set exactly for `i = 5, 6, 7`. -/
theorem testBit_E0 (i : Nat) :
    Nat.testBit 0xE0 i = decide (i = 5 ∨ i = 6 ∨ i = 7) := by
  by_cases hi : i < 8
  · interval_cases i <;> decide
  · have h : Nat.testBit 0xE0 i = false :=
      Nat.testBit_lt_two_pow
        (Nat.lt_of_lt_of_le (by norm_num : (0xE0 : Nat) < 2 ^ 8)
          (Nat.pow_le_pow_right (by decide) (by omega)))
    rw [h]
    symm
    rw [decide_eq_false_iff_not]
    omega

/-- Bit `i` of `0x60` is set exactly for `i = 5, 6`. -/
theorem testBit_60 (i : Nat) :
    Nat.testBit 0x60 i = decide (i = 5 ∨ i = 6) := by
  by_cases hi : i < 8
  · interval_cases i <;> decide
  · have h : Nat.testBit 0x60 i = false :=
      Nat.testBit_lt_two_pow
        (Nat.lt_of_lt_of_le (by norm_num : (0x60 : Nat) < 2 ^ 8)
          (Nat.pow_le_pow_right (by decide) (by omega)))
    rw [h]
    symm
    rw [decide_eq_false_iff_not]
    omega

/-- Bit `i` of `IPR[0]` after `PMOD_BTN_Interrupt_Init`: bits 5 and 6 are set,
bit 7 is clear, and every other bit of the 32 is as before. -/
theorem PMOD_BTN_Interrupt_Init_IPR0_testBit (task : Option Task) (s : System) (i : Nat) :
    (PMOD_BTN_Interrupt_Init task s).m.NVIC.IPR0.testBit i =
      (decide (i < 32) &&
        (if i = 5 ∨ i = 6 then true else if i = 7 then false
         else s.m.NVIC.IPR0.testBit i)) := by
  show (or32 (and32 s.m.NVIC.IPR0 (not32 0x0000000E0)) (3 <<< 5)).testBit i = _
  have h5 : (3 <<< 5 : Nat) = 0x60 := by decide
  rw [h5]
  simp only [or32, and32, Nat.testBit_mod_two_pow, Nat.testBit_or, Nat.testBit_and,
    testBit_not32 0x0000000E0 i (by norm_num), testBit_E0, testBit_60]
  by_cases hi : i < 32
  · by_cases h56 : i = 5 ∨ i = 6
    · have h567 : i = 5 ∨ i = 6 ∨ i = 7 := by omega
      simp [hi, h56, h567]
    · by_cases h7 : i = 7
      · simp [h7]
      · have h567 : ¬ (i = 5 ∨ i = 6 ∨ i = 7) := by omega
        simp [hi, h56, h7, h567]
  · simp [hi]

/-- The port A half of the priority claim holds: after
`PMOD_BTN_Interrupt_Init` the priority field in bits 7 to 5 of `IPR[0]` is 3. -/
theorem PMOD_BTN_Interrupt_Init_priority (task : Option Task) (s : System) :
    priority_field (PMOD_BTN_Interrupt_Init task s).m.NVIC.IPR0 5 = 3 := by
  unfold priority_field
  have h8 : (8 : Nat) = 2 ^ 3 := by norm_num
  rw [h8]
  apply Nat.eq_of_testBit_eq
  intro j
  rw [Nat.testBit_mod_two_pow, Nat.testBit_shiftRight, PMOD_BTN_Interrupt_Init_IPR0_testBit]
  by_cases hj : j < 3
  · interval_cases j <;> simp <;> decide
  · have h3 : Nat.testBit 3 j = false :=
      Nat.testBit_lt_two_pow
        (Nat.lt_of_lt_of_le (by norm_num : (3 : Nat) < 2 ^ 3)
          (Nat.pow_le_pow_right (by decide) (by omega)))
    simp [hj, h3]

/-- Claim C14, evaluated at an input where the code departs from it.  With
`IPR[0] = 0x80000000` before (port D priority field 4),
`EduBase_Button_Interrupt_Init` leaves `IPR[0] = 0xE0000000`: the field in bits
31 to 29 is 7, not 3, because the mask `~0xE00000000` of line 68 cleared nothing.
On the same input `PMOD_BTN_Interrupt_Init` leaves `0x80000060`, port A field
3 and the other bits as before. -/
theorem C14_edubase_init_priority_at_four :
    priority_field Examples.priority_four.m.NVIC.IPR0 29 = 4 ∧
    (EduBase_Button_Interrupt_Init none Examples.priority_four).m.NVIC.IPR0 = 0xE0000000 ∧
    priority_field (EduBase_Button_Interrupt_Init none Examples.priority_four).m.NVIC.IPR0 29
      = 7 ∧
    (PMOD_BTN_Interrupt_Init none Examples.priority_four).m.NVIC.IPR0 = 0x80000060 ∧
    priority_field (PMOD_BTN_Interrupt_Init none Examples.priority_four).m.NVIC.IPR0 5
      = 3 := by
  decide

/-! ## Re-initialisation -/

/-- Claim C16.  For every prior system and tasks `t1`, `t2`, running
`EduBase_Button_Interrupt_Init(t1)` and then `EduBase_Button_Interrupt_Init(t2)`
yields the same system, register for register, as running
`EduBase_Button_Interrupt_Init(t2)` once, and the registered task is `t2`; the
same holds for `PMOD_BTN_Interrupt_Init`. -/
theorem C16_init_idempotent_last_task_wins (s : System) (t1 t2 : Option Task) :
    EduBase_Button_Interrupt_Init t2 (EduBase_Button_Interrupt_Init t1 s) =
      EduBase_Button_Interrupt_Init t2 s ∧
    (EduBase_Button_Interrupt_Init t2 (EduBase_Button_Interrupt_Init t1 s)).EduBase_Button_Task
      = t2 ∧
    PMOD_BTN_Interrupt_Init t2 (PMOD_BTN_Interrupt_Init t1 s) =
      PMOD_BTN_Interrupt_Init t2 s ∧
    (PMOD_BTN_Interrupt_Init t2 (PMOD_BTN_Interrupt_Init t1 s)).PMOD_BTN_Task = t2 := by
  refine ⟨?_, rfl, ?_, rfl⟩
  · simp only [EduBase_Button_Interrupt_Init_eq, or32_idem, and32_idem, or32_and32_idem]
  · simp only [or32_idem, and32_idem, or32_and32_idem, PMOD_BTN_Interrupt_Init_eq]

/-! ## The read-status functions -/

/-- Bit `i` of `0x3C` is clear for every `i` outside `2..5`. -/
theorem testBit_3C_outside (x i : Nat) (h : Nat.testBit 0x3C i = false) :
    ((x &&& 0x3C) % 256).testBit i = false := by
  have h8 : (256 : Nat) = 2 ^ 8 := by norm_num
  rw [h8, Nat.testBit_mod_two_pow, Nat.testBit_and, h]
  simp

/-- The port A channel reads its own port: `PMOD_BTN_Read` of
`PMOD_BTN_Interrupt.c` returns `GPIOA->DATA & 0x3C`, every bit of the result
outside `0x3C` is 0, and the call leaves the machine as it was. -/
theorem PMOD_BTN_Read_call_own_port (m : Machine) :
    PMOD_BTN_Read_call m = (m.GPIOA.DATA &&& 0x3C, m) ∧
    (∀ i : Nat, Nat.testBit 0x3C i = false →
      (PMOD_BTN_Read_call m).1.testBit i = false) := by
  have hb : (m.GPIOA.DATA &&& 0x3C) % 256 = m.GPIOA.DATA &&& 0x3C := by
    have h : m.GPIOA.DATA &&& 0x3C ≤ 0x3C := Nat.and_le_right
    omega
  refine ⟨?_, fun i hi => testBit_3C_outside _ i hi⟩
  simp only [hb, PMOD_BTN_Read_call, PMOD_BTN_Read]

/-- The function defined in `EduBase_Button_Interrupt.c` does not read port D:
on every machine it returns `GPIOA->DATA & 0x3C`, so its result is the same
whatever `GPIOD->DATA` holds. -/
theorem EduBase_file_read_ignores_port_D (m : Machine) (d : GPIO_Type) :
    EduBase_Button_Interrupt.PMOD_BTN_Read_call m = (m.GPIOA.DATA &&& 0x3C, m) ∧
    (EduBase_Button_Interrupt.PMOD_BTN_Read_call { m with GPIOD := d }).1 =
      (EduBase_Button_Interrupt.PMOD_BTN_Read_call m).1 := by
  have hb : (m.GPIOA.DATA &&& 0x3C) % 256 = m.GPIOA.DATA &&& 0x3C := by
    have h : m.GPIOA.DATA &&& 0x3C ≤ 0x3C := Nat.and_le_right
    omega
  refine ⟨?_, rfl⟩
  simp only [EduBase_Button_Interrupt.PMOD_BTN_Read_call,
    EduBase_Button_Interrupt.PMOD_BTN_Read, hb]

/-- Claim C12, evaluated at an input where the code departs from it.  With
`GPIOA->DATA = 0x30` and `GPIOD->DATA = 0x0C`, the function defined in
`EduBase_Button_Interrupt.c` returns `0x30`, the masked port A value, and not
`GPIOD->DATA & 0x0C = 0x0C`; bit 4 of the result is set although it lies
outside the mask `0x0C` of the EduBase channel. -/
theorem C12_edubase_file_read_at_both_ports_high :
    (EduBase_Button_Interrupt.PMOD_BTN_Read_call Examples.both_ports_high).1 = 0x30 ∧
    Examples.both_ports_high.GPIOD.DATA &&& 0x0C = 0x0C ∧
    (EduBase_Button_Interrupt.PMOD_BTN_Read_call Examples.both_ports_high).1.testBit 4 = true ∧
    Nat.testBit 0x0C 4 = false := by
  decide

end Stopwatch
